import Mathlib

/-!
Shallow embedding of the GreenPath emission calculator
(src/emissions/emission_calculator.py).

Python floats are modelled as exact rationals; Python `round(x, n)`
(round-half-to-even, the documented behaviour of the builtin) is modelled
by `pyRound` below.  Python exceptions are modelled with `Except String`;
the dict returned with an `error` key by `find_greenest_option` on an
empty mode list is modelled by the `GreenestResult.errorResult`
constructor, distinct from a raised exception.
-/

/-- The `TransportMode` enumeration, in source declaration order. -/
inductive TransportMode where
  | road_truck
  | road_van
  | rail
  | air_cargo
  | ship_container
  | ship_bulk
  deriving DecidableEq

/-- `list(TransportMode)`: the canonical catalog order (enum declaration order). -/
def allModes : List TransportMode :=
  [.road_truck, .road_van, .rail, .air_cargo, .ship_container, .ship_bulk]

/-- The `EmissionFactor` dataclass. -/
structure EmissionFactor where
  mode : TransportMode
  factor_kg_co2_per_tonne_km : ℚ
  description : String
  source : String
  deriving DecidableEq

/-- `EmissionCalculator._load_emission_factors`: the factor dictionary, as an
association list in insertion order. -/
def emission_factors : List (TransportMode × EmissionFactor) :=
  [(.road_truck,
    ⟨.road_truck, 62/1000, "Heavy duty truck (>32 tonnes)", "IPCC 2019 Guidelines"⟩),
   (.road_van,
    ⟨.road_van, 158/1000, "Light commercial vehicle (<3.5 tonnes)", "IPCC 2019 Guidelines"⟩),
   (.rail,
    ⟨.rail, 22/1000, "Electric/diesel freight train", "IPCC 2019 Guidelines"⟩),
   (.air_cargo,
    ⟨.air_cargo, 602/1000, "Air cargo freight", "IPCC 2019 Guidelines"⟩),
   (.ship_container,
    ⟨.ship_container, 11/1000, "Container ship", "IMO Fourth GHG Study 2020"⟩),
   (.ship_bulk,
    ⟨.ship_bulk, 8/1000, "Bulk carrier ship", "IMO Fourth GHG Study 2020"⟩)]

/-- Dictionary lookup `self.emission_factors[mode]`, and the membership test
`transport_mode not in self.emission_factors` (`none` when absent). -/
def factorFor (m : TransportMode) : Option EmissionFactor :=
  (emission_factors.find? (fun p => p.1 == m)).map Prod.snd

/-- Python `round` to an integer: round half to even (banker's rounding). -/
def pyRoundInt (x : ℚ) : ℤ :=
  if x - ⌊x⌋ < 1/2 then ⌊x⌋
  else if 1/2 < x - ⌊x⌋ then ⌊x⌋ + 1
  else if ⌊x⌋ % 2 = 0 then ⌊x⌋ else ⌊x⌋ + 1

/-- Python `round(x, ndigits)` for `ndigits ≥ 0`, on exact rationals. -/
def pyRound (ndigits : ℕ) (x : ℚ) : ℚ :=
  (pyRoundInt (x * 10 ^ ndigits) : ℚ) / 10 ^ ndigits

/-- The dictionary returned by `EmissionCalculator.calculate_emissions`. -/
structure EmissionResult where
  co2_emissions_kg : ℚ
  co2_emissions_tonnes : ℚ
  distance_km : ℚ
  weight_tonnes : ℚ
  transport_mode : TransportMode
  emission_factor : ℚ
  emission_factor_source : String
  deriving DecidableEq

/-- `EmissionCalculator.calculate_emissions`: raises `ValueError` (modelled by
`Except.error`) when the mode is absent from the factor dictionary, otherwise
computes `co2_kg = distance_km * weight_tonnes * factor` at full precision and
rounds only for the returned fields. -/
def calculate_emissions (distance_km weight_tonnes : ℚ) (transport_mode : TransportMode) :
    Except String EmissionResult :=
  match factorFor transport_mode with
  | none => .error ("Unsupported transport mode")
  | some factor =>
    let co2_kg := distance_km * weight_tonnes * factor.factor_kg_co2_per_tonne_km
    let co2_tonnes := co2_kg / 1000
    .ok
      { co2_emissions_kg := pyRound 3 co2_kg
        co2_emissions_tonnes := pyRound 6 co2_tonnes
        distance_km := distance_km
        weight_tonnes := weight_tonnes
        transport_mode := transport_mode
        emission_factor := factor.factor_kg_co2_per_tonne_km
        emission_factor_source := factor.source }

/-- One row accumulated by `compare_transport_modes` before the DataFrame
post-processing. -/
structure ComparisonRow where
  transport_mode : TransportMode
  co2_emissions_kg : ℚ
  emission_factor : ℚ
  description : String
  deriving DecidableEq

/-- One row of the final DataFrame of `compare_transport_modes`, with the
columns added after sorting. -/
structure RankedRow where
  transport_mode : TransportMode
  co2_emissions_kg : ℚ
  emission_factor : ℚ
  description : String
  emission_rank : ℕ
  emission_difference_vs_best : ℚ
  emission_percentage_vs_best : ℚ
  deriving DecidableEq

/-- The accumulation loop of `compare_transport_modes`: one row per requested
mode, with `except ValueError: continue` modelled by `filterMap` dropping the
error case. -/
def compareResults (distance_km weight_tonnes : ℚ) (modes : List TransportMode) :
    List ComparisonRow :=
  modes.filterMap (fun mode =>
    match calculate_emissions distance_km weight_tonnes mode, factorFor mode with
    | .ok e, some f =>
      some
        { transport_mode := mode
          co2_emissions_kg := e.co2_emissions_kg
          emission_factor := e.emission_factor
          description := f.description }
    | _, _ => none)

/-- Sort key of `df.sort_values('co2_emissions_kg')`. -/
def rowRel (a b : ComparisonRow) : Prop :=
  a.co2_emissions_kg ≤ b.co2_emissions_kg

instance : DecidableRel rowRel :=
  fun a b => inferInstanceAs (Decidable (a.co2_emissions_kg ≤ b.co2_emissions_kg))

instance : IsTotal ComparisonRow rowRel :=
  ⟨fun a b => le_total a.co2_emissions_kg b.co2_emissions_kg⟩

instance : IsTrans ComparisonRow rowRel :=
  ⟨fun _ _ _ hab hbc => le_trans hab hbc⟩

/-- The DataFrame post-processing of `compare_transport_modes` on the sorted
rows: `if not df.empty`, then rank column `range(1, len+1)`, difference and
percentage versus the column minimum. -/
def rankRows (sorted : List ComparisonRow) : List RankedRow :=
  match sorted with
  | [] => []
  | h :: t =>
    let best := (t.map (·.co2_emissions_kg)).foldl min h.co2_emissions_kg
    (h :: t).enum.map (fun p =>
      { transport_mode := p.2.transport_mode
        co2_emissions_kg := p.2.co2_emissions_kg
        emission_factor := p.2.emission_factor
        description := p.2.description
        emission_rank := p.1 + 1
        emission_difference_vs_best := p.2.co2_emissions_kg - best
        emission_percentage_vs_best := pyRound 1 ((p.2.co2_emissions_kg / best - 1) * 100) })

/-- `EmissionCalculator.compare_transport_modes`: builds one row per requested
mode (default: all modes), sorts ascending by `co2_emissions_kg`, then adds
rank and difference-vs-best columns.  The `sort_values` call runs numpy sort
on at most 16 rows, where numpy uses insertion sort, so the sort is modelled
as a stable insertion sort. -/
def compare_transport_modes (distance_km weight_tonnes : ℚ)
    (modes : Option (List TransportMode)) : List RankedRow :=
  let ms := modes.getD allModes
  rankRows ((compareResults distance_km weight_tonnes ms).insertionSort rowRel)

/-- The dictionary returned by `calculate_carbon_tax_cost`. -/
structure CarbonTaxResult where
  co2_emissions_kg : ℚ
  co2_emissions_tonnes : ℚ
  carbon_tax_rate_per_tonne : ℚ
  carbon_tax_cost_usd : ℚ
  deriving DecidableEq

/-- Default value of the `carbon_tax_rate_per_tonne` parameter. -/
def default_carbon_tax_rate : ℚ := 50

/-- `EmissionCalculator.calculate_carbon_tax_cost`. -/
def calculate_carbon_tax_cost (co2_emissions_kg carbon_tax_rate_per_tonne : ℚ) :
    CarbonTaxResult :=
  let co2_tonnes := co2_emissions_kg / 1000
  let carbon_tax_cost := co2_tonnes * carbon_tax_rate_per_tonne
  { co2_emissions_kg := co2_emissions_kg
    co2_emissions_tonnes := pyRound 6 co2_tonnes
    carbon_tax_rate_per_tonne := carbon_tax_rate_per_tonne
    carbon_tax_cost_usd := pyRound 2 carbon_tax_cost }

/-- The static `mode_speeds` table of `find_greenest_option` (km/h); the
`.get(mode, 50)` default is unreachable because the table is total over the
enumeration. -/
def mode_speeds (m : TransportMode) : ℚ :=
  match m with
  | .road_truck => 80
  | .road_van => 70
  | .rail => 50
  | .air_cargo => 800
  | .ship_container => 25
  | .ship_bulk => 20

/-- One entry of the `options` list built by `find_greenest_option`. -/
structure ModeOptionEntry where
  mode : TransportMode
  co2_emissions_kg : ℚ
  travel_time_hours : ℚ
  emission_factor : ℚ
  deriving DecidableEq

/-- One entry of the `all_options` field of the recommendation. -/
structure OptionSummary where
  mode : TransportMode
  co2_emissions_kg : ℚ
  travel_time_hours : ℚ
  deriving DecidableEq

/-- The recommendation dictionary returned by `find_greenest_option`. -/
structure Recommendation where
  recommended_mode : TransportMode
  co2_emissions_kg : ℚ
  travel_time_hours : ℚ
  is_within_time_constraint : Bool
  time_penalty_percent : ℚ
  emission_savings_vs_fastest : ℚ
  emission_reduction_percent : ℚ
  all_options : List OptionSummary
  deriving DecidableEq

/-- Return value of `find_greenest_option`: either the recommendation
dictionary or the `error`-keyed dictionary returned on an empty mode list. -/
inductive GreenestResult where
  | errorResult (message : String)
  | recommendation (r : Recommendation)
  deriving DecidableEq

/-- Loop body of `find_greenest_option`: `calculate_emissions` (whose
exception would propagate, there is no try/except here) plus the travel time
from the speed table. -/
def buildOption (distance_km weight_tonnes : ℚ) (mode : TransportMode) :
    Except String ModeOptionEntry :=
  (calculate_emissions distance_km weight_tonnes mode).map (fun e =>
    { mode := mode
      co2_emissions_kg := e.co2_emissions_kg
      travel_time_hours := distance_km / mode_speeds mode
      emission_factor := e.emission_factor })

/-- Sort key of `options.sort(key=lambda x: x['co2_emissions_kg'])`; Python's
`list.sort` is a stable sort, modelled as a stable insertion sort. -/
def entryRel (a b : ModeOptionEntry) : Prop :=
  a.co2_emissions_kg ≤ b.co2_emissions_kg

instance : DecidableRel entryRel :=
  fun a b => inferInstanceAs (Decidable (a.co2_emissions_kg ≤ b.co2_emissions_kg))

instance : IsTotal ModeOptionEntry entryRel :=
  ⟨fun a b => le_total a.co2_emissions_kg b.co2_emissions_kg⟩

instance : IsTrans ModeOptionEntry entryRel :=
  ⟨fun _ _ _ hab hbc => le_trans hab hbc⟩

/-- Python `min(key=...)` over a nonempty list: keeps the first minimum. -/
def pyMinBy (key : ModeOptionEntry → ℚ) : ModeOptionEntry → List ModeOptionEntry → ModeOptionEntry
  | best, [] => best
  | best, x :: xs => pyMinBy key (if key x < key best then x else best) xs

/-- Tail of `find_greenest_option` after the options list has been built and
sorted: empty check, greenest = first element of the co2-sorted list, fastest
= first minimum of travel time, then the recommendation fields.  Note that
`is_within_time_constraint` compares the UNROUNDED time penalty with the
bound, while the reported `time_penalty_percent` is rounded to 1 decimal. -/
def greenestFromOptions (max_time_penalty_percent : ℚ)
    (options : List ModeOptionEntry) : GreenestResult :=
  match options with
  | [] => .errorResult ("No available transport modes")
  | greenest :: rest =>
    let fastest := pyMinBy (·.travel_time_hours) greenest rest
    let time_penalty :=
      (greenest.travel_time_hours - fastest.travel_time_hours) / fastest.travel_time_hours * 100
    .recommendation
      { recommended_mode := greenest.mode
        co2_emissions_kg := greenest.co2_emissions_kg
        travel_time_hours := greenest.travel_time_hours
        is_within_time_constraint := decide (time_penalty ≤ max_time_penalty_percent)
        time_penalty_percent := pyRound 1 time_penalty
        emission_savings_vs_fastest :=
          pyRound 2 (fastest.co2_emissions_kg - greenest.co2_emissions_kg)
        emission_reduction_percent :=
          if 0 < fastest.co2_emissions_kg then
            pyRound 1 ((1 - greenest.co2_emissions_kg / fastest.co2_emissions_kg) * 100)
          else 0
        all_options := (greenest :: rest).map (fun o =>
          { mode := o.mode
            co2_emissions_kg := o.co2_emissions_kg
            travel_time_hours := pyRound 1 o.travel_time_hours }) }

/-- `EmissionOptimizer.find_greenest_option`: builds an option per available
mode (an exception from `calculate_emissions` propagates), sorts ascending by
emissions with Python's stable `list.sort`, and assembles the recommendation. -/
def find_greenest_option (distance_km weight_tonnes : ℚ)
    (available_modes : List TransportMode) (max_time_penalty_percent : ℚ) :
    Except String GreenestResult :=
  (available_modes.mapM (buildOption distance_km weight_tonnes)).map (fun options =>
    greenestFromOptions max_time_penalty_percent (options.insertionSort entryRel))

/-- Projection used to state facts about the recommendation case. -/
def greenestRec (e : Except String GreenestResult) : Option Recommendation :=
  match e with
  | .ok (.recommendation r) => some r
  | _ => none

/-- Whether `calculate_emissions` returns normally (no `ValueError`). -/
def calcSucceeds (d w : ℚ) (m : TransportMode) : Bool :=
  match calculate_emissions d w m with
  | .ok _ => true
  | .error _ => false

/-! ## Catalog records and per-mode evaluation -/

/-- The catalog record stored for each mode in `emission_factors`. -/
def catalogEntry (m : TransportMode) : EmissionFactor :=
  match m with
  | .road_truck =>
    ⟨.road_truck, 62/1000, "Heavy duty truck (>32 tonnes)", "IPCC 2019 Guidelines"⟩
  | .road_van =>
    ⟨.road_van, 158/1000, "Light commercial vehicle (<3.5 tonnes)", "IPCC 2019 Guidelines"⟩
  | .rail =>
    ⟨.rail, 22/1000, "Electric/diesel freight train", "IPCC 2019 Guidelines"⟩
  | .air_cargo =>
    ⟨.air_cargo, 602/1000, "Air cargo freight", "IPCC 2019 Guidelines"⟩
  | .ship_container =>
    ⟨.ship_container, 11/1000, "Container ship", "IMO Fourth GHG Study 2020"⟩
  | .ship_bulk =>
    ⟨.ship_bulk, 8/1000, "Bulk carrier ship", "IMO Fourth GHG Study 2020"⟩

/-- Emission factor of a mode, as stored in the catalog. -/
def catalogFactor (m : TransportMode) : ℚ :=
  (catalogEntry m).factor_kg_co2_per_tonne_km

/-- The result record `calculate_emissions` produces for a mode of the catalog. -/
def emissionResultOf (d w : ℚ) (m : TransportMode) : EmissionResult :=
  { co2_emissions_kg := pyRound 3 (d * w * catalogFactor m)
    co2_emissions_tonnes := pyRound 6 (d * w * catalogFactor m / 1000)
    distance_km := d
    weight_tonnes := w
    transport_mode := m
    emission_factor := catalogFactor m
    emission_factor_source := (catalogEntry m).source }

/-- The comparison row `compare_transport_modes` builds for a mode. -/
def rowOf (d w : ℚ) (m : TransportMode) : ComparisonRow :=
  { transport_mode := m
    co2_emissions_kg := pyRound 3 (d * w * catalogFactor m)
    emission_factor := catalogFactor m
    description := (catalogEntry m).description }

/-- The option record `find_greenest_option` builds for a mode. -/
def entryOf (d w : ℚ) (m : TransportMode) : ModeOptionEntry :=
  { mode := m
    co2_emissions_kg := pyRound 3 (d * w * catalogFactor m)
    travel_time_hours := d / mode_speeds m
    emission_factor := catalogFactor m }

theorem factorFor_eq (m : TransportMode) : factorFor m = some (catalogEntry m) := by
  cases m <;> rfl

theorem calculate_emissions_eq (d w : ℚ) (m : TransportMode) :
    calculate_emissions d w m = .ok (emissionResultOf d w m) := by
  cases m <;> rfl

theorem compareResults_eq (d w : ℚ) (ms : List TransportMode) :
    compareResults d w ms = ms.map (rowOf d w) := by
  induction ms with
  | nil => rfl
  | cons m ms ih =>
    have hbody :
        (match calculate_emissions d w m, factorFor m with
          | .ok e, some f =>
            some
              { transport_mode := m
                co2_emissions_kg := e.co2_emissions_kg
                emission_factor := e.emission_factor
                description := f.description }
          | _, _ => (none : Option ComparisonRow)) = some (rowOf d w m) := by
      cases m <;> rfl
    simpa [compareResults, List.filterMap_cons, hbody] using
      congrArg (List.cons (rowOf d w m)) (by simpa [compareResults] using ih)

theorem buildOption_eq (d w : ℚ) (m : TransportMode) :
    buildOption d w m = .ok (entryOf d w m) := by
  cases m <;> rfl

theorem mapM_buildOption (d w : ℚ) (ms : List TransportMode) :
    ms.mapM (buildOption d w) = .ok (ms.map (entryOf d w)) := by
  induction ms with
  | nil => rfl
  | cons m ms ih =>
    rw [List.mapM_cons, buildOption_eq, ih]
    rfl

theorem find_greenest_eq (d w mx : ℚ) (ms : List TransportMode) :
    find_greenest_option d w ms mx =
      .ok (greenestFromOptions mx ((ms.map (entryOf d w)).insertionSort entryRel)) := by
  rw [find_greenest_option, mapM_buildOption]
  rfl

/-! ## Facts about the rounding model -/

theorem pyRoundInt_abs_sub (x : ℚ) : |(pyRoundInt x : ℚ) - x| ≤ 1/2 := by
  have h0 : ((⌊x⌋ : ℤ) : ℚ) ≤ x := Int.floor_le x
  have h1 : x < (⌊x⌋ : ℤ) + 1 := Int.lt_floor_add_one x
  rw [pyRoundInt]
  split_ifs with hlt hgt hev
  · rw [abs_le]; constructor <;> linarith
  · rw [abs_le]; push_cast; constructor <;> linarith
  · have heq : x - (⌊x⌋ : ℚ) = 1/2 := le_antisymm (not_lt.mp hgt) (not_lt.mp hlt)
    rw [abs_le]; constructor <;> linarith
  · have heq : x - (⌊x⌋ : ℚ) = 1/2 := le_antisymm (not_lt.mp hgt) (not_lt.mp hlt)
    rw [abs_le]; push_cast; constructor <;> linarith

theorem pyRoundInt_nonneg (x : ℚ) (hx : 0 ≤ x) : 0 ≤ pyRoundInt x := by
  have h0 : (0 : ℤ) ≤ ⌊x⌋ := Int.floor_nonneg.mpr hx
  rw [pyRoundInt]
  split_ifs <;> omega

theorem pyRoundInt_zero : pyRoundInt 0 = 0 := by
  rw [pyRoundInt]
  norm_num

theorem pyRound_abs_sub (k : ℕ) (x : ℚ) : |pyRound k x - x| ≤ 1 / (2 * 10 ^ k) := by
  have hpow : (0 : ℚ) < 10 ^ k := by positivity
  have h := pyRoundInt_abs_sub (x * 10 ^ k)
  have hrw : pyRound k x - x = ((pyRoundInt (x * 10 ^ k) : ℚ) - x * 10 ^ k) / 10 ^ k := by
    rw [pyRound]
    field_simp
    ring
  rw [hrw, abs_div, abs_of_pos hpow, div_le_div_iff₀ hpow (by positivity)]
  calc |(pyRoundInt (x * 10 ^ k) : ℚ) - x * 10 ^ k| * (2 * 10 ^ k)
      ≤ (1/2) * (2 * 10 ^ k) := by
        have : (0 : ℚ) ≤ 2 * 10 ^ k := by positivity
        exact mul_le_mul_of_nonneg_right h this
    _ = 1 * 10 ^ k := by ring

theorem pyRound_nonneg (k : ℕ) (x : ℚ) (hx : 0 ≤ x) : 0 ≤ pyRound k x := by
  have hpow : (0 : ℚ) < 10 ^ k := by positivity
  have hx10 : (0 : ℚ) ≤ x * 10 ^ k := by positivity
  have := pyRoundInt_nonneg (x * 10 ^ k) hx10
  rw [pyRound]
  have hcast : (0 : ℚ) ≤ (pyRoundInt (x * 10 ^ k) : ℚ) := by exact_mod_cast this
  positivity

theorem pyRound_zero (k : ℕ) : pyRound k 0 = 0 := by
  rw [pyRound, zero_mul, pyRoundInt_zero]
  norm_num

/-! ## Facts about the list helpers -/

theorem foldl_min_eq (a : ℚ) (l : List ℚ) (h : ∀ x ∈ l, a ≤ x) : l.foldl min a = a := by
  induction l generalizing a with
  | nil => rfl
  | cons x xs ih =>
    rw [List.foldl_cons, min_eq_left (h x (by simp))]
    exact ih a (fun y hy => h y (by simp [hy]))

theorem pyMinBy_mem (key : ModeOptionEntry → ℚ) (a : ModeOptionEntry)
    (l : List ModeOptionEntry) : pyMinBy key a l ∈ a :: l := by
  induction l generalizing a with
  | nil => simp [pyMinBy]
  | cons x xs ih =>
    rw [pyMinBy]
    by_cases hc : key x < key a
    · rw [if_pos hc]
      rcases List.mem_cons.mp (ih x) with hmem | hmem
      · simp [hmem]
      · simp [hmem]
    · rw [if_neg hc]
      rcases List.mem_cons.mp (ih a) with hmem | hmem
      · simp [hmem]
      · simp [hmem]

theorem pyMinBy_le (key : ModeOptionEntry → ℚ) (a : ModeOptionEntry)
    (l : List ModeOptionEntry) : ∀ b ∈ a :: l, key (pyMinBy key a l) ≤ key b := by
  induction l generalizing a with
  | nil =>
    intro b hb
    rw [List.mem_singleton.mp hb]
    rw [pyMinBy]
  | cons x xs ih =>
    intro b hb
    rw [pyMinBy]
    have hma : key (if key x < key a then x else a) ≤ key a := by
      split_ifs with hc
      · exact le_of_lt hc
      · exact le_refl _
    have hmx : key (if key x < key a then x else a) ≤ key x := by
      split_ifs with hc
      · exact le_refl _
      · exact not_lt.mp hc
    have hrec := ih (if key x < key a then x else a)
    have hself : key (pyMinBy key (if key x < key a then x else a) xs) ≤
        key (if key x < key a then x else a) :=
      hrec _ (by simp)
    rcases List.mem_cons.mp hb with hba | hb2
    · rw [hba]
      exact le_trans hself hma
    · rcases List.mem_cons.mp hb2 with hbx | hbxs
      · rw [hbx]
        exact le_trans hself hmx
      · exact hrec b (by simp [hbxs])

/-! ## Facts about the DataFrame post-processing -/

theorem enum_map_snd_comp {α β : Type} (l : List α) (g : α → β) :
    l.enum.map (fun p => g p.2) = l.map g := by
  have h : (fun p : ℕ × α => g p.2) = g ∘ Prod.snd := rfl
  rw [h, ← List.map_map, List.enum_map_snd]

theorem rankRows_length (l : List ComparisonRow) : (rankRows l).length = l.length := by
  cases l with
  | nil => rfl
  | cons h t => simp [rankRows, List.enum_length]

theorem rankRows_map_co2 (l : List ComparisonRow) :
    (rankRows l).map (·.co2_emissions_kg) = l.map (·.co2_emissions_kg) := by
  cases l with
  | nil => rfl
  | cons h t =>
    rw [rankRows]
    rw [List.map_map]
    exact enum_map_snd_comp (h :: t) (·.co2_emissions_kg)

theorem rankRows_map_mode (l : List ComparisonRow) :
    (rankRows l).map (·.transport_mode) = l.map (·.transport_mode) := by
  cases l with
  | nil => rfl
  | cons h t =>
    rw [rankRows]
    rw [List.map_map]
    exact enum_map_snd_comp (h :: t) (·.transport_mode)

theorem rankRows_rank (l : List ComparisonRow) (i : ℕ) (h : i < (rankRows l).length) :
    ((rankRows l).get ⟨i, h⟩).emission_rank = i + 1 := by
  cases l with
  | nil => simp [rankRows] at h
  | cons hd t =>
    simp [rankRows, List.get_eq_getElem, List.getElem_map, List.getElem_enum]

theorem rankRows_head_diff (l : List ComparisonRow) (hs : List.Sorted rowRel l)
    (h0 : 0 < (rankRows l).length) :
    ((rankRows l).get ⟨0, h0⟩).emission_difference_vs_best = 0 := by
  cases l with
  | nil => simp [rankRows] at h0
  | cons hd t =>
    have hmin : ∀ x ∈ t.map (·.co2_emissions_kg), hd.co2_emissions_kg ≤ x := by
      intro x hx
      rcases List.mem_map.mp hx with ⟨r, hr, hrx⟩
      rw [← hrx]
      exact List.rel_of_sorted_cons hs r hr
    have hbest := foldl_min_eq hd.co2_emissions_kg (t.map (·.co2_emissions_kg)) hmin
    simp [rankRows, List.get_eq_getElem, List.getElem_map, List.getElem_enum, hbest]

theorem compare_transport_modes_eq (d w : ℚ) (ms : List TransportMode) :
    compare_transport_modes d w (some ms) =
      rankRows ((ms.map (rowOf d w)).insertionSort rowRel) := by
  rw [compare_transport_modes, compareResults_eq]
  rfl

theorem map_rowOf_mode (d w : ℚ) (ms : List TransportMode) :
    (ms.map (rowOf d w)).map (·.transport_mode) = ms := by
  rw [List.map_map]
  have h : ((fun r : ComparisonRow => r.transport_mode) ∘ rowOf d w) = id := rfl
  rw [h, List.map_id]

theorem map_entryOf_mode (d w : ℚ) (ms : List TransportMode) :
    (ms.map (entryOf d w)).map (·.mode) = ms := by
  rw [List.map_map]
  have h : ((fun e : ModeOptionEntry => e.mode) ∘ entryOf d w) = id := rfl
  rw [h, List.map_id]

theorem sorted_map_co2 (l : List ComparisonRow) (hs : List.Sorted rowRel l) :
    List.Sorted (· ≤ ·) (l.map (·.co2_emissions_kg)) := by
  rw [List.Sorted, List.pairwise_map]
  exact hs

/-! ## Decomposition of the greenest-option computation -/

theorem greenest_decomposition (d w mx : ℚ) (ms : List TransportMode) (hms : ms ≠ []) :
    ∃ g rest,
      (ms.map (entryOf d w)).insertionSort entryRel = g :: rest ∧
      g ∈ ms.map (entryOf d w) ∧
      (∀ o ∈ ms.map (entryOf d w), g.co2_emissions_kg ≤ o.co2_emissions_kg) ∧
      pyMinBy (·.travel_time_hours) g rest ∈ ms.map (entryOf d w) ∧
      (∀ o ∈ ms.map (entryOf d w),
        (pyMinBy (·.travel_time_hours) g rest).travel_time_hours ≤ o.travel_time_hours) ∧
      find_greenest_option d w ms mx = .ok (greenestFromOptions mx (g :: rest)) := by
  have hlnil : ms.map (entryOf d w) ≠ [] := by
    intro h
    exact hms (List.map_eq_nil_iff.mp h)
  obtain ⟨g, rest, hgr⟩ :
      ∃ g rest, (ms.map (entryOf d w)).insertionSort entryRel = g :: rest := by
    cases hcase : (ms.map (entryOf d w)).insertionSort entryRel with
    | nil =>
      exfalso
      have hlen := congrArg List.length hcase
      rw [List.length_insertionSort] at hlen
      exact hlnil (List.length_eq_zero.mp hlen)
    | cons a t => exact ⟨a, t, rfl⟩
  have hperm : (g :: rest).Perm (ms.map (entryOf d w)) := by
    rw [← hgr]
    exact List.perm_insertionSort entryRel _
  have hsorted : List.Sorted entryRel (g :: rest) := by
    rw [← hgr]
    exact List.sorted_insertionSort entryRel _
  have hmemg : g ∈ ms.map (entryOf d w) := hperm.mem_iff.mp (by simp)
  have hgmin : ∀ o ∈ ms.map (entryOf d w), g.co2_emissions_kg ≤ o.co2_emissions_kg := by
    intro o ho
    rcases List.mem_cons.mp (hperm.mem_iff.mpr ho) with h1 | h2
    · exact le_of_eq (by rw [h1])
    · exact List.rel_of_sorted_cons hsorted o h2
  have hmemf : pyMinBy (·.travel_time_hours) g rest ∈ ms.map (entryOf d w) :=
    hperm.mem_iff.mp (pyMinBy_mem _ g rest)
  have hfmin : ∀ o ∈ ms.map (entryOf d w),
      (pyMinBy (·.travel_time_hours) g rest).travel_time_hours ≤ o.travel_time_hours := by
    intro o ho
    exact pyMinBy_le _ g rest o (hperm.mem_iff.mpr ho)
  refine ⟨g, rest, hgr, hmemg, hgmin, hmemf, hfmin, ?_⟩
  rw [find_greenest_eq, hgr]

/-! ## Claim theorems -/

/-- C1 counterexample: `calculate_emissions` called with distance 0 (a
non-positive input) does not fail; it returns a normal result whose
`co2_emissions_kg` is silently 0, contradicting the claim that non-positive
distance or weight fails with `InvalidInputError`. -/
theorem C1_counterexample :
    calculate_emissions 0 1 TransportMode.road_truck =
      .ok (emissionResultOf 0 1 TransportMode.road_truck) ∧
    (emissionResultOf 0 1 TransportMode.road_truck).co2_emissions_kg = 0 ∧
    calcSucceeds 0 1 TransportMode.road_truck = true := by
  refine ⟨calculate_emissions_eq 0 1 TransportMode.road_truck, ?_, rfl⟩
  show pyRound 3 (0 * 1 * catalogFactor TransportMode.road_truck) = 0
  rw [zero_mul, zero_mul, pyRound_zero]

/-- C1 (amended): `calculate_emissions` performs no validation of distance or
weight: for zero or negative distance or weight it still returns a normal
result with `co2_emissions_kg = round(d * w * factor, 3)` (zero or degenerate)
instead of failing; only a mode absent from the catalog raises. -/
theorem C1_amended_no_input_validation (d w : ℚ) (m : TransportMode)
    (h : d ≤ 0 ∨ w ≤ 0) :
    calculate_emissions d w m = .ok (emissionResultOf d w m) ∧
    (emissionResultOf d w m).co2_emissions_kg = pyRound 3 (d * w * catalogFactor m) ∧
    calcSucceeds d w m = true := by
  refine ⟨calculate_emissions_eq d w m, rfl, ?_⟩
  rw [calcSucceeds, calculate_emissions_eq]

/-- Witness for the amended C1 at distance 0, weight 1, road truck. -/
theorem C1_amended_witness :
    ((0:ℚ) ≤ 0 ∨ (1:ℚ) ≤ 0) ∧
    (calculate_emissions 0 1 TransportMode.road_truck =
        .ok (emissionResultOf 0 1 TransportMode.road_truck) ∧
      (emissionResultOf 0 1 TransportMode.road_truck).co2_emissions_kg =
        pyRound 3 (0 * 1 * catalogFactor TransportMode.road_truck) ∧
      calcSucceeds 0 1 TransportMode.road_truck = true) :=
  ⟨Or.inl le_rfl, C1_amended_no_input_validation 0 1 TransportMode.road_truck (Or.inl le_rfl)⟩

/-- C2: for positive distance and weight and any catalog mode,
`calculate_emissions` returns `co2_emissions_kg = round(d * w * factor, 3)` and
`co2_emissions_tonnes = round(d * w * factor / 1000, 6)`, the product being
formed at full precision before each rounding. -/
theorem C2_calculate_emissions_formula (d w : ℚ) (m : TransportMode)
    (hd : 0 < d) (hw : 0 < w) :
    calculate_emissions d w m = .ok (emissionResultOf d w m) ∧
    (emissionResultOf d w m).co2_emissions_kg = pyRound 3 (d * w * catalogFactor m) ∧
    (emissionResultOf d w m).co2_emissions_tonnes =
      pyRound 6 (d * w * catalogFactor m / 1000) :=
  ⟨calculate_emissions_eq d w m, rfl, rfl⟩

/-- Witness for C2: the spec's rail scenario (500 km, 2 t). -/
theorem C2_witness :
    (0:ℚ) < 500 ∧ (0:ℚ) < 2 ∧
    (calculate_emissions 500 2 TransportMode.rail =
        .ok (emissionResultOf 500 2 TransportMode.rail) ∧
      (emissionResultOf 500 2 TransportMode.rail).co2_emissions_kg =
        pyRound 3 (500 * 2 * catalogFactor TransportMode.rail) ∧
      (emissionResultOf 500 2 TransportMode.rail).co2_emissions_tonnes =
        pyRound 6 (500 * 2 * catalogFactor TransportMode.rail / 1000)) :=
  ⟨by norm_num, by norm_num,
    C2_calculate_emissions_formula 500 2 TransportMode.rail (by norm_num) (by norm_num)⟩

/-- C6: `find_greenest_option` with an empty candidate list returns the
structured `error` dictionary (not a raised exception), and no recommendation
fields are produced. -/
theorem C6_empty_candidates (d w mx : ℚ) (hd : 0 < d) (hw : 0 < w) :
    find_greenest_option d w [] mx = .ok (.errorResult ("No available transport modes")) ∧
    greenestRec (find_greenest_option d w [] mx) = none :=
  ⟨rfl, rfl⟩

/-- Witness for C6 at distance 1, weight 1, default bound 10. -/
theorem C6_witness :
    (0:ℚ) < 1 ∧ (0:ℚ) < 1 ∧
    (find_greenest_option 1 1 [] 10 = .ok (.errorResult ("No available transport modes")) ∧
      greenestRec (find_greenest_option 1 1 [] 10) = none) :=
  ⟨by norm_num, by norm_num, C6_empty_candidates 1 1 10 (by norm_num) (by norm_num)⟩

/-- C8: `calculate_carbon_tax_cost` returns
`cost_usd = round(co2_kg / 1000 * rate, 2)`; at 0 kg the cost is 0 for any
rate, the default rate is 50 per tonne, and 602 kg at the default rate costs
30.10. -/
theorem C8_carbon_tax_formula (x r : ℚ) :
    (calculate_carbon_tax_cost x r).carbon_tax_cost_usd = pyRound 2 (x / 1000 * r) ∧
    (calculate_carbon_tax_cost 0 r).carbon_tax_cost_usd = 0 ∧
    default_carbon_tax_rate = 50 ∧
    (calculate_carbon_tax_cost 602 default_carbon_tax_rate).carbon_tax_cost_usd = 301/10 := by
  refine ⟨rfl, ?_, rfl, ?_⟩
  · show pyRound 2 (0 / 1000 * r) = 0
    rw [zero_div, zero_mul, pyRound_zero]
  · show pyRound 2 (602 / 1000 * 50) = 301/10
    rw [pyRound]
    norm_num [pyRoundInt]

/-- C9: `calculate_emissions` is linear in distance and in weight up to the
3-decimal rounding tolerance: doubling either input changes `co2_emissions_kg`
by a factor of 2 up to an absolute error of 3/2000 (one half-ulp for the
doubled product plus two for the doubled rounding of the original). -/
theorem C9_calculate_linear (d w : ℚ) (m : TransportMode) (hd : 0 < d) (hw : 0 < w) :
    calculate_emissions (2 * d) w m = .ok (emissionResultOf (2 * d) w m) ∧
    calculate_emissions d (2 * w) m = .ok (emissionResultOf d (2 * w) m) ∧
    |(emissionResultOf (2 * d) w m).co2_emissions_kg -
        2 * (emissionResultOf d w m).co2_emissions_kg| ≤ 3/2000 ∧
    |(emissionResultOf d (2 * w) m).co2_emissions_kg -
        2 * (emissionResultOf d w m).co2_emissions_kg| ≤ 3/2000 := by
  have key : ∀ p : ℚ, |pyRound 3 (2 * p) - 2 * pyRound 3 p| ≤ 3/2000 := by
    intro p
    have h1 := abs_le.mp (pyRound_abs_sub 3 (2 * p))
    have h2 := abs_le.mp (pyRound_abs_sub 3 p)
    rw [abs_le]
    norm_num at h1 h2 ⊢
    constructor <;> linarith
  refine ⟨calculate_emissions_eq (2 * d) w m, calculate_emissions_eq d (2 * w) m, ?_, ?_⟩
  · show |pyRound 3 (2 * d * w * catalogFactor m) -
        2 * pyRound 3 (d * w * catalogFactor m)| ≤ 3/2000
    have harg : 2 * d * w * catalogFactor m = 2 * (d * w * catalogFactor m) := by ring
    rw [harg]
    exact key _
  · show |pyRound 3 (d * (2 * w) * catalogFactor m) -
        2 * pyRound 3 (d * w * catalogFactor m)| ≤ 3/2000
    have harg : d * (2 * w) * catalogFactor m = 2 * (d * w * catalogFactor m) := by ring
    rw [harg]
    exact key _

/-- Witness for C9 at distance 1, weight 1, rail. -/
theorem C9_witness :
    (0:ℚ) < 1 ∧ (0:ℚ) < 1 ∧
    (calculate_emissions (2 * 1) 1 TransportMode.rail =
        .ok (emissionResultOf (2 * 1) 1 TransportMode.rail) ∧
      calculate_emissions 1 (2 * 1) TransportMode.rail =
        .ok (emissionResultOf 1 (2 * 1) TransportMode.rail) ∧
      |(emissionResultOf (2 * 1) 1 TransportMode.rail).co2_emissions_kg -
          2 * (emissionResultOf 1 1 TransportMode.rail).co2_emissions_kg| ≤ 3/2000 ∧
      |(emissionResultOf 1 (2 * 1) TransportMode.rail).co2_emissions_kg -
          2 * (emissionResultOf 1 1 TransportMode.rail).co2_emissions_kg| ≤ 3/2000) :=
  ⟨by norm_num, by norm_num,
    C9_calculate_linear 1 1 TransportMode.rail (by norm_num) (by norm_num)⟩

/-- C7: with a single candidate mode, `find_greenest_option` recommends that
mode (it is both greenest and fastest), with zero time penalty and the time
constraint satisfied for any non-negative bound. -/
theorem C7_single_candidate (d w mx : ℚ) (m : TransportMode)
    (hd : 0 < d) (hmx : 0 ≤ mx) :
    (greenestRec (find_greenest_option d w [m] mx)).map
        (fun r => (r.recommended_mode, r.time_penalty_percent, r.is_within_time_constraint)) =
      some (m, 0, true) := by
  rw [find_greenest_eq]
  have htp : ((entryOf d w m).travel_time_hours - (entryOf d w m).travel_time_hours) /
      (entryOf d w m).travel_time_hours * 100 = 0 := by
    rw [sub_self, zero_div, zero_mul]
  show some ((entryOf d w m).mode,
      pyRound 1 (((entryOf d w m).travel_time_hours - (entryOf d w m).travel_time_hours) /
        (entryOf d w m).travel_time_hours * 100),
      decide (((entryOf d w m).travel_time_hours - (entryOf d w m).travel_time_hours) /
        (entryOf d w m).travel_time_hours * 100 ≤ mx)) = some (m, 0, true)
  rw [htp, pyRound_zero, decide_eq_true hmx]
  rfl

/-- Witness for C7 at distance 500, weight 2, rail, bound 10. -/
theorem C7_witness :
    (0:ℚ) < 500 ∧ (0:ℚ) ≤ 10 ∧
    (greenestRec (find_greenest_option 500 2 [TransportMode.rail] 10)).map
        (fun r => (r.recommended_mode, r.time_penalty_percent, r.is_within_time_constraint)) =
      some (TransportMode.rail, 0, true) :=
  ⟨by norm_num, by norm_num,
    C7_single_candidate 500 2 10 TransportMode.rail (by norm_num) (by norm_num)⟩

/-- C10: every recommendation produced by `find_greenest_option` has
non-negative `emission_savings_vs_fastest` and `emission_reduction_percent`,
because the recommended (greenest) option minimises `co2_emissions_kg` over
all candidate options, so it never exceeds the fastest option's emissions. -/
theorem C10_savings_nonneg (d w mx : ℚ) (ms : List TransportMode) (hms : ms ≠ [])
    (hd : 0 < d) (hw : 0 < w) :
    ∃ r, find_greenest_option d w ms mx = .ok (.recommendation r) ∧
      0 ≤ r.emission_savings_vs_fastest ∧ 0 ≤ r.emission_reduction_percent := by
  obtain ⟨g, rest, hgr, hmemg, hgmin, hmemf, hfmin, heq⟩ :=
    greenest_decomposition d w mx ms hms
  have hgf : g.co2_emissions_kg ≤ (pyMinBy (·.travel_time_hours) g rest).co2_emissions_kg :=
    hgmin _ hmemf
  refine ⟨_, by rw [heq]; rfl, ?_, ?_⟩
  · show 0 ≤ pyRound 2 ((pyMinBy (·.travel_time_hours) g rest).co2_emissions_kg -
        g.co2_emissions_kg)
    exact pyRound_nonneg _ _ (by linarith)
  · show 0 ≤ if 0 < (pyMinBy (·.travel_time_hours) g rest).co2_emissions_kg then
        pyRound 1 ((1 - g.co2_emissions_kg /
          (pyMinBy (·.travel_time_hours) g rest).co2_emissions_kg) * 100)
      else 0
    split_ifs with hpos
    · apply pyRound_nonneg
      have hdiv : g.co2_emissions_kg /
          (pyMinBy (·.travel_time_hours) g rest).co2_emissions_kg ≤ 1 :=
        (div_le_one hpos).mpr hgf
      have h1 : (0:ℚ) ≤ 1 - g.co2_emissions_kg /
          (pyMinBy (·.travel_time_hours) g rest).co2_emissions_kg := by linarith
      exact mul_nonneg h1 (by norm_num)
    · exact le_refl 0

/-- Witness for C10 at the spec's recommendation scenario (500 km, 2 t,
truck/rail/container ship, bound 10). -/
theorem C10_witness :
    ([TransportMode.road_truck, TransportMode.rail, TransportMode.ship_container] ≠
      ([] : List TransportMode)) ∧ (0:ℚ) < 500 ∧ (0:ℚ) < 2 ∧
    ∃ r, find_greenest_option 500 2
        [TransportMode.road_truck, TransportMode.rail, TransportMode.ship_container] 10 =
        .ok (.recommendation r) ∧
      0 ≤ r.emission_savings_vs_fastest ∧ 0 ≤ r.emission_reduction_percent :=
  ⟨by decide, by norm_num, by norm_num,
    C10_savings_nonneg 500 2 10
      [TransportMode.road_truck, TransportMode.rail, TransportMode.ship_container]
      (by decide) (by norm_num) (by norm_num)⟩

/-- C3: for positive distance and weight and a non-empty requested mode list,
`compare_transport_modes` returns rows sorted ascending by `co2_emissions_kg`,
with `emission_rank` equal to 1..N in order, the first row's
`emission_difference_vs_best` exactly 0, one row per requested mode (each mode
is computed independently, so a failing mode would be skipped, not abort the
comparison), and an empty result exactly when no requested mode succeeds. -/
theorem C3_compare_ranked (d w : ℚ) (ms : List TransportMode) (hms : ms ≠ [])
    (hd : 0 < d) (hw : 0 < w) :
    List.Sorted (· ≤ ·)
        ((compare_transport_modes d w (some ms)).map (·.co2_emissions_kg)) ∧
    (∀ i (h : i < (compare_transport_modes d w (some ms)).length),
      ((compare_transport_modes d w (some ms)).get ⟨i, h⟩).emission_rank = i + 1) ∧
    (∀ h0 : 0 < (compare_transport_modes d w (some ms)).length,
      ((compare_transport_modes d w (some ms)).get ⟨0, h0⟩).emission_difference_vs_best = 0) ∧
    ((compare_transport_modes d w (some ms)).map (·.transport_mode)).Perm ms ∧
    compare_transport_modes d w (some ms) ≠ [] ∧
    (compare_transport_modes d w (some ms) = [] ↔
      ∀ m ∈ ms, calcSucceeds d w m = false) := by
  have hcmp := compare_transport_modes_eq d w ms
  have hsorted : List.Sorted rowRel ((ms.map (rowOf d w)).insertionSort rowRel) :=
    List.sorted_insertionSort rowRel _
  have hnonnil : compare_transport_modes d w (some ms) ≠ [] := by
    rw [hcmp]
    intro hnil
    have hlen := congrArg List.length hnil
    rw [rankRows_length, List.length_insertionSort, List.length_map] at hlen
    exact hms (List.length_eq_zero.mp hlen)
  refine ⟨?_, ?_, ?_, ?_, hnonnil, ?_⟩
  · rw [hcmp, rankRows_map_co2]
    exact sorted_map_co2 _ hsorted
  · intro i h
    revert h
    rw [hcmp]
    intro h
    exact rankRows_rank _ i h
  · intro h0
    revert h0
    rw [hcmp]
    intro h0
    exact rankRows_head_diff _ hsorted h0
  · rw [hcmp, rankRows_map_mode]
    have hperm := (List.perm_insertionSort rowRel (ms.map (rowOf d w))).map
      (fun r : ComparisonRow => r.transport_mode)
    rw [map_rowOf_mode] at hperm
    exact hperm
  · constructor
    · intro hnil
      exact absurd hnil hnonnil
    · intro hall
      obtain ⟨m, hm⟩ := List.exists_mem_of_ne_nil ms hms
      have hfail := hall m hm
      rw [calcSucceeds, calculate_emissions_eq] at hfail
      exact absurd hfail (by simp)

/-- Witness for C3 over all six modes at distance 500, weight 2. -/
theorem C3_witness :
    (allModes ≠ []) ∧ (0:ℚ) < 500 ∧ (0:ℚ) < 2 ∧
    (List.Sorted (· ≤ ·)
        ((compare_transport_modes 500 2 (some allModes)).map (·.co2_emissions_kg)) ∧
    (∀ i (h : i < (compare_transport_modes 500 2 (some allModes)).length),
      ((compare_transport_modes 500 2 (some allModes)).get ⟨i, h⟩).emission_rank = i + 1) ∧
    (∀ h0 : 0 < (compare_transport_modes 500 2 (some allModes)).length,
      ((compare_transport_modes 500 2 (some allModes)).get
        ⟨0, h0⟩).emission_difference_vs_best = 0) ∧
    ((compare_transport_modes 500 2 (some allModes)).map (·.transport_mode)).Perm allModes ∧
    compare_transport_modes 500 2 (some allModes) ≠ [] ∧
    (compare_transport_modes 500 2 (some allModes) = [] ↔
      ∀ m ∈ allModes, calcSucceeds 500 2 m = false)) :=
  ⟨by decide, by norm_num, by norm_num,
    C3_compare_ranked 500 2 allModes (by decide) (by norm_num) (by norm_num)⟩

/-- C4 (amended): when two requested modes produce equal `co2_emissions_kg`,
`compare_transport_modes` preserves their relative order from the REQUESTED
mode list (the order in which the rows were built), not the catalog's
canonical `allModes()` order: the sort is stable with respect to the input
row order. -/
theorem C4_amended_ties_keep_requested_order (d w : ℚ) (ms : List TransportMode)
    (m1 m2 : TransportMode) (hsub : [m1, m2].Sublist ms)
    (heq : pyRound 3 (d * w * catalogFactor m1) = pyRound 3 (d * w * catalogFactor m2)) :
    [m1, m2].Sublist ((compare_transport_modes d w (some ms)).map (·.transport_mode)) := by
  rw [compare_transport_modes_eq, rankRows_map_mode]
  have hrowsub : [rowOf d w m1, rowOf d w m2].Sublist (ms.map (rowOf d w)) :=
    hsub.map (rowOf d w)
  have hpair : ([rowOf d w m1, rowOf d w m2] : List ComparisonRow).Pairwise rowRel := by
    constructor
    · intro b hb
      rw [List.mem_singleton.mp hb]
      show pyRound 3 (d * w * catalogFactor m1) ≤ pyRound 3 (d * w * catalogFactor m2)
      exact le_of_eq heq
    · exact List.pairwise_singleton _ _
  exact (List.sublist_insertionSort hpair hrowsub).map (fun r : ComparisonRow => r.transport_mode)

theorem pyRound3_tiny_van :
    pyRound 3 ((1/10 : ℚ) * (1/100) * catalogFactor TransportMode.road_van) = 0 := by
  rw [pyRound]
  norm_num [catalogFactor, catalogEntry, pyRoundInt]

theorem pyRound3_tiny_truck :
    pyRound 3 ((1/10 : ℚ) * (1/100) * catalogFactor TransportMode.road_truck) = 0 := by
  rw [pyRound]
  norm_num [catalogFactor, catalogEntry, pyRoundInt]

theorem tiny_tie_sort :
    ([rowOf (1/10) (1/100) TransportMode.road_van,
      rowOf (1/10) (1/100) TransportMode.road_truck]).insertionSort rowRel =
    [rowOf (1/10) (1/100) TransportMode.road_van,
      rowOf (1/10) (1/100) TransportMode.road_truck] := by
  have hrel : rowRel (rowOf (1/10) (1/100) TransportMode.road_van)
      (rowOf (1/10) (1/100) TransportMode.road_truck) := by
    show pyRound 3 ((1/10 : ℚ) * (1/100) * catalogFactor TransportMode.road_van) ≤
      pyRound 3 ((1/10 : ℚ) * (1/100) * catalogFactor TransportMode.road_truck)
    rw [pyRound3_tiny_van, pyRound3_tiny_truck]
  show (if rowRel (rowOf (1/10) (1/100) TransportMode.road_van)
      (rowOf (1/10) (1/100) TransportMode.road_truck) then
      [rowOf (1/10) (1/100) TransportMode.road_van,
        rowOf (1/10) (1/100) TransportMode.road_truck]
    else rowOf (1/10) (1/100) TransportMode.road_truck ::
      List.orderedInsert rowRel (rowOf (1/10) (1/100) TransportMode.road_van) []) =
    [rowOf (1/10) (1/100) TransportMode.road_van,
      rowOf (1/10) (1/100) TransportMode.road_truck]
  rw [if_pos hrel]

/-- C4 counterexample: at distance 0.1 and weight 0.01, the requested modes
road_van and road_truck both round to 0 kg (a tie); the output keeps the
REQUESTED order van-before-truck, while the catalog order `allModes` has
truck before van — so ties do NOT follow the catalog's canonical order. -/
theorem C4_counterexample :
    (compare_transport_modes (1/10) (1/100)
        (some [TransportMode.road_van, TransportMode.road_truck])).map (·.transport_mode) =
      [TransportMode.road_van, TransportMode.road_truck] ∧
    (compare_transport_modes (1/10) (1/100)
        (some [TransportMode.road_van, TransportMode.road_truck])).map (·.co2_emissions_kg) =
      [0, 0] ∧
    [TransportMode.road_truck, TransportMode.road_van].Sublist allModes ∧
    ¬ [TransportMode.road_truck, TransportMode.road_van].Sublist
        ((compare_transport_modes (1/10) (1/100)
          (some [TransportMode.road_van, TransportMode.road_truck])).map (·.transport_mode)) := by
  have h1 : (compare_transport_modes (1/10) (1/100)
      (some [TransportMode.road_van, TransportMode.road_truck])).map (·.transport_mode) =
      [TransportMode.road_van, TransportMode.road_truck] := by
    rw [compare_transport_modes_eq]
    rw [show ([TransportMode.road_van, TransportMode.road_truck].map (rowOf (1/10) (1/100))) =
      [rowOf (1/10) (1/100) TransportMode.road_van,
        rowOf (1/10) (1/100) TransportMode.road_truck] from rfl]
    rw [tiny_tie_sort, rankRows_map_mode]
    rfl
  have h2 : (compare_transport_modes (1/10) (1/100)
      (some [TransportMode.road_van, TransportMode.road_truck])).map (·.co2_emissions_kg) =
      [0, 0] := by
    rw [compare_transport_modes_eq]
    rw [show ([TransportMode.road_van, TransportMode.road_truck].map (rowOf (1/10) (1/100))) =
      [rowOf (1/10) (1/100) TransportMode.road_van,
        rowOf (1/10) (1/100) TransportMode.road_truck] from rfl]
    rw [tiny_tie_sort, rankRows_map_co2]
    show [pyRound 3 ((1/10 : ℚ) * (1/100) * catalogFactor TransportMode.road_van),
      pyRound 3 ((1/10 : ℚ) * (1/100) * catalogFactor TransportMode.road_truck)] = [0, 0]
    rw [pyRound3_tiny_van, pyRound3_tiny_truck]
  refine ⟨h1, h2, by decide, ?_⟩
  rw [h1]
  decide

/-- Witness for the amended C4: the tie above, with both requested modes in
requested order appearing in the output in that order. -/
theorem C4_amended_witness :
    [TransportMode.road_van, TransportMode.road_truck].Sublist
        [TransportMode.road_van, TransportMode.road_truck] ∧
    pyRound 3 ((1/10 : ℚ) * (1/100) * catalogFactor TransportMode.road_van) =
      pyRound 3 ((1/10 : ℚ) * (1/100) * catalogFactor TransportMode.road_truck) ∧
    [TransportMode.road_van, TransportMode.road_truck].Sublist
      ((compare_transport_modes (1/10) (1/100)
        (some [TransportMode.road_van, TransportMode.road_truck])).map (·.transport_mode)) :=
  ⟨List.Sublist.refl _, by rw [pyRound3_tiny_van, pyRound3_tiny_truck],
    C4_amended_ties_keep_requested_order (1/10) (1/100)
      [TransportMode.road_van, TransportMode.road_truck]
      TransportMode.road_van TransportMode.road_truck (by decide)
      (by rw [pyRound3_tiny_van, pyRound3_tiny_truck])⟩

/-- C5 (amended): `find_greenest_option` reports
`time_penalty_percent = round((greenest.time - fastest.time) / fastest.time * 100, 1)`
with greenest minimising emissions and fastest minimising travel time over the
candidate options, but `is_within_time_constraint` compares the UNROUNDED
time penalty against the bound (so near the boundary the flag can disagree
with the reported rounded percentage). -/
theorem C5_amended_time_penalty (d w mx : ℚ) (ms : List TransportMode) (hms : ms ≠ [])
    (hd : 0 < d) (hw : 0 < w) :
    ∃ r g f,
      find_greenest_option d w ms mx = .ok (.recommendation r) ∧
      g ∈ ms.map (entryOf d w) ∧
      f ∈ ms.map (entryOf d w) ∧
      (∀ o ∈ ms.map (entryOf d w), g.co2_emissions_kg ≤ o.co2_emissions_kg) ∧
      (∀ o ∈ ms.map (entryOf d w), f.travel_time_hours ≤ o.travel_time_hours) ∧
      r.time_penalty_percent =
        pyRound 1 ((g.travel_time_hours - f.travel_time_hours) / f.travel_time_hours * 100) ∧
      (r.is_within_time_constraint = true ↔
        (g.travel_time_hours - f.travel_time_hours) / f.travel_time_hours * 100 ≤ mx) := by
  obtain ⟨g, rest, hgr, hmemg, hgmin, hmemf, hfmin, heq⟩ :=
    greenest_decomposition d w mx ms hms
  refine ⟨_, g, pyMinBy (·.travel_time_hours) g rest, by rw [heq]; rfl,
    hmemg, hmemf, hgmin, hfmin, rfl, ?_⟩
  show decide ((g.travel_time_hours -
      (pyMinBy (·.travel_time_hours) g rest).travel_time_hours) /
      (pyMinBy (·.travel_time_hours) g rest).travel_time_hours * 100 ≤ mx) = true ↔
    (g.travel_time_hours - (pyMinBy (·.travel_time_hours) g rest).travel_time_hours) /
      (pyMinBy (·.travel_time_hours) g rest).travel_time_hours * 100 ≤ mx
  constructor
  · exact of_decide_eq_true
  · exact decide_eq_true

/-- Witness for the amended C5 on the spec's scenario (500 km, 2 t,
truck/rail/container ship, bound 10). -/
theorem C5_amended_witness :
    ([TransportMode.road_truck, TransportMode.rail, TransportMode.ship_container] ≠
      ([] : List TransportMode)) ∧ (0:ℚ) < 500 ∧ (0:ℚ) < 2 ∧
    ∃ r g f,
      find_greenest_option 500 2
          [TransportMode.road_truck, TransportMode.rail, TransportMode.ship_container] 10 =
        .ok (.recommendation r) ∧
      g ∈ [TransportMode.road_truck, TransportMode.rail,
        TransportMode.ship_container].map (entryOf 500 2) ∧
      f ∈ [TransportMode.road_truck, TransportMode.rail,
        TransportMode.ship_container].map (entryOf 500 2) ∧
      (∀ o ∈ [TransportMode.road_truck, TransportMode.rail,
        TransportMode.ship_container].map (entryOf 500 2),
        g.co2_emissions_kg ≤ o.co2_emissions_kg) ∧
      (∀ o ∈ [TransportMode.road_truck, TransportMode.rail,
        TransportMode.ship_container].map (entryOf 500 2),
        f.travel_time_hours ≤ o.travel_time_hours) ∧
      r.time_penalty_percent =
        pyRound 1 ((g.travel_time_hours - f.travel_time_hours) / f.travel_time_hours * 100) ∧
      (r.is_within_time_constraint = true ↔
        (g.travel_time_hours - f.travel_time_hours) / f.travel_time_hours * 100 ≤ 10) :=
  ⟨by decide, by norm_num, by norm_num,
    C5_amended_time_penalty 500 2 10
      [TransportMode.road_truck, TransportMode.rail, TransportMode.ship_container]
      (by decide) (by norm_num) (by norm_num)⟩

/-- C5 counterexample: van versus air cargo over 100 km has unrounded time
penalty 7300/7 = 1042.857…, reported as 1042.9 after rounding; with bound
1042.88 the flag is true (the code compares the unrounded value), yet the
reported rounded `time_penalty_percent` exceeds the bound — refuting the
claim that the flag equals `reported value ≤ bound`. -/
theorem C5_counterexample :
    (greenestRec (find_greenest_option 100 1
        [TransportMode.road_van, TransportMode.air_cargo] (26072/25))).map
      (fun r => (r.is_within_time_constraint, r.time_penalty_percent)) =
      some (true, 10429/10) ∧
    ¬ ((10429 : ℚ)/10 ≤ 26072/25) := by
  constructor
  · rw [find_greenest_eq]
    rw [show ([TransportMode.road_van, TransportMode.air_cargo].map (entryOf 100 1)) =
      [entryOf 100 1 TransportMode.road_van, entryOf 100 1 TransportMode.air_cargo] from rfl]
    have hrel : entryRel (entryOf 100 1 TransportMode.road_van)
        (entryOf 100 1 TransportMode.air_cargo) := by
      show pyRound 3 ((100:ℚ) * 1 * catalogFactor TransportMode.road_van) ≤
        pyRound 3 ((100:ℚ) * 1 * catalogFactor TransportMode.air_cargo)
      have hv : pyRound 3 ((100:ℚ) * 1 * catalogFactor TransportMode.road_van) = 79/5 := by
        rw [pyRound]
        norm_num [catalogFactor, catalogEntry, pyRoundInt]
      have ha : pyRound 3 ((100:ℚ) * 1 * catalogFactor TransportMode.air_cargo) = 301/5 := by
        rw [pyRound]
        norm_num [catalogFactor, catalogEntry, pyRoundInt]
      rw [hv, ha]
      norm_num
    have hsort : ([entryOf 100 1 TransportMode.road_van,
        entryOf 100 1 TransportMode.air_cargo]).insertionSort entryRel =
        [entryOf 100 1 TransportMode.road_van, entryOf 100 1 TransportMode.air_cargo] := by
      show (if entryRel (entryOf 100 1 TransportMode.road_van)
          (entryOf 100 1 TransportMode.air_cargo) then
          [entryOf 100 1 TransportMode.road_van, entryOf 100 1 TransportMode.air_cargo]
        else entryOf 100 1 TransportMode.air_cargo ::
          List.orderedInsert entryRel (entryOf 100 1 TransportMode.road_van) []) =
        [entryOf 100 1 TransportMode.road_van, entryOf 100 1 TransportMode.air_cargo]
      rw [if_pos hrel]
    rw [hsort]
    have hfast : pyMinBy (·.travel_time_hours) (entryOf 100 1 TransportMode.road_van)
        [entryOf 100 1 TransportMode.air_cargo] = entryOf 100 1 TransportMode.air_cargo := by
      show (if (entryOf 100 1 TransportMode.air_cargo).travel_time_hours <
          (entryOf 100 1 TransportMode.road_van).travel_time_hours then
          entryOf 100 1 TransportMode.air_cargo
        else entryOf 100 1 TransportMode.road_van) = entryOf 100 1 TransportMode.air_cargo
      rw [if_pos]
      show (100:ℚ) / mode_speeds TransportMode.air_cargo <
        (100:ℚ) / mode_speeds TransportMode.road_van
      norm_num [mode_speeds]
    show some
      (decide (((entryOf 100 1 TransportMode.road_van).travel_time_hours -
          (pyMinBy (·.travel_time_hours) (entryOf 100 1 TransportMode.road_van)
            [entryOf 100 1 TransportMode.air_cargo]).travel_time_hours) /
          (pyMinBy (·.travel_time_hours) (entryOf 100 1 TransportMode.road_van)
            [entryOf 100 1 TransportMode.air_cargo]).travel_time_hours * 100 ≤ 26072/25),
       pyRound 1 (((entryOf 100 1 TransportMode.road_van).travel_time_hours -
          (pyMinBy (·.travel_time_hours) (entryOf 100 1 TransportMode.road_van)
            [entryOf 100 1 TransportMode.air_cargo]).travel_time_hours) /
          (pyMinBy (·.travel_time_hours) (entryOf 100 1 TransportMode.road_van)
            [entryOf 100 1 TransportMode.air_cargo]).travel_time_hours * 100)) =
      some (true, 10429/10)
    rw [hfast]
    have htp : ((entryOf 100 1 TransportMode.road_van).travel_time_hours -
        (entryOf 100 1 TransportMode.air_cargo).travel_time_hours) /
        (entryOf 100 1 TransportMode.air_cargo).travel_time_hours * 100 = 7300/7 := by
      show ((100:ℚ) / mode_speeds TransportMode.road_van -
          100 / mode_speeds TransportMode.air_cargo) /
          (100 / mode_speeds TransportMode.air_cargo) * 100 = 7300/7
      norm_num [mode_speeds]
    rw [htp]
    have hdec : decide ((7300:ℚ)/7 ≤ 26072/25) = true := by
      rw [decide_eq_true_eq]
      norm_num
    have hround : pyRound 1 ((7300:ℚ)/7) = 10429/10 := by
      rw [pyRound]
      norm_num [pyRoundInt]
    rw [hdec, hround]
  · norm_num
